import Mathlib

/-!
Shallow embedding of the pan/tilt CLI controller (ptz_cli.py):
state store, motion controller (clamp, step count, linear interpolation),
and capture-outcome classification. Angles and bounds are modelled as
exact rationals; the stored JSON document as a record of optional fields;
the actuator daemon as an environment value saying whether the connection
succeeds and whether some interpolation step raises.
-/

namespace PTZ

/-- The persisted position record (fields of DEFAULTS / the state file). -/
structure PositionState where
  pan : ℚ
  tilt : ℚ
  pan_min : ℚ
  pan_max : ℚ
  tilt_min : ℚ
  tilt_max : ℚ
deriving DecidableEq

/-- The DEFAULTS dict of ptz_cli.py. -/
def DEFAULTS : PositionState :=
  { pan := 0, tilt := 0, pan_min := -90, pan_max := 90, tilt_min := -90, tilt_max := 30 }

/-- clamp(val, lo, hi) = max(lo, min(hi, val)). -/
def clamp (val lo hi : ℚ) : ℚ := max lo (min hi val)

/-- A readable state file: a JSON object where each of the six keys may be
present or absent. A missing or unreadable/corrupt file is modelled as
none at the call site of load_state. -/
structure StoredDoc where
  pan : Option ℚ
  tilt : Option ℚ
  pan_min : Option ℚ
  pan_max : Option ℚ
  tilt_min : Option ℚ
  tilt_max : Option ℚ
deriving DecidableEq

/-- load_state: start from DEFAULTS.copy() and update with whatever keys the
file provides; a missing or corrupt file (any exception) leaves the defaults. -/
def load_state : Option StoredDoc → PositionState
  | none => DEFAULTS
  | some d =>
    { pan := d.pan.getD DEFAULTS.pan
      tilt := d.tilt.getD DEFAULTS.tilt
      pan_min := d.pan_min.getD DEFAULTS.pan_min
      pan_max := d.pan_max.getD DEFAULTS.pan_max
      tilt_min := d.tilt_min.getD DEFAULTS.tilt_min
      tilt_max := d.tilt_max.getD DEFAULTS.tilt_max }

/-- steps = max(1, int(smooth_ms / 20)): Python int() truncates toward zero,
which is Int.tdiv. -/
def stepsOf (smooth_ms : Int) : Nat := (max 1 (Int.tdiv smooth_ms 20)).toNat

/-- One linear-interpolation value: start + (target - start) * i / steps. -/
def interp (start target : ℚ) (i steps : Nat) : ℚ :=
  start + (target - start) * (i : ℚ) / (steps : ℚ)

/-- The sequence of (pan, tilt) commands sent to the servos by the loop
for i in range(1, steps + 1). -/
def trajectory (pan tilt start_pan start_tilt : ℚ) (steps : Nat) : List (ℚ × ℚ) :=
  (List.range' 1 steps).map fun i =>
    (interp start_pan pan i steps, interp start_tilt tilt i steps)

/-- Environment of one move: whether ensure_pigpiod ends up connected, and
whether the pigpio call of some step (1-based) raises. -/
structure Actuator where
  connected : Bool
  failAt : Option Nat
deriving DecidableEq

inductive MoveErr where
  | actuatorUnavailable
  | stepFailed (i : Nat)
deriving DecidableEq

/-- move_servos: connect (raise if the daemon is unreachable), then send
steps 1..steps; a step raising aborts the move. On success the value is the
full list of commands sent. -/
def move_servos (pan tilt : ℚ) (smooth_ms : Int) (start_pan start_tilt : ℚ)
    (act : Actuator) : Except MoveErr (List (ℚ × ℚ)) :=
  if act.connected = false then .error .actuatorUnavailable
  else
    let steps := stepsOf smooth_ms
    match act.failAt with
    | some i =>
      if 1 ≤ i ∧ i ≤ steps then .error (.stepFailed i)
      else .ok (trajectory pan tilt start_pan start_tilt steps)
    | none => .ok (trajectory pan tilt start_pan start_tilt steps)

/-- The argparse namespace a move receives: optional pan/tilt, the relative
flag, smooth_ms, and the four bounds (argparse fills defaults when omitted). -/
structure MoveArgs where
  pan : Option ℚ
  tilt : Option ℚ
  relative : Bool
  smooth_ms : Int
  pan_min : ℚ
  pan_max : ℚ
  tilt_min : ℚ
  tilt_max : ℚ
deriving DecidableEq

/-- Axis resolution exactly as written in cmd_move:
pan = args.pan + (pan if args.relative else 0.0) when args.pan is given. -/
def resolveAxis (cur : ℚ) (req : Option ℚ) (relative : Bool) : ℚ :=
  match req with
  | none => cur
  | some v => v + (if relative then cur else 0)

/-- Axis resolution in the spec's words: omitted axis keeps the current
value; relative adds the delta to the current value; absolute takes the
requested value directly. -/
def resolveSpec (cur : ℚ) (req : Option ℚ) (relative : Bool) : ℚ :=
  match req with
  | none => cur
  | some v => if relative then cur + v else v

/-- The clamped pan target of cmd_move:
pan = clamp(pan, args.pan_min, args.pan_max). -/
def resolvedPan (args : MoveArgs) (store : PositionState) : ℚ :=
  clamp (resolveAxis store.pan args.pan args.relative) args.pan_min args.pan_max

/-- The clamped tilt target of cmd_move:
tilt = clamp(tilt, args.tilt_min, args.tilt_max). -/
def resolvedTilt (args : MoveArgs) (store : PositionState) : ℚ :=
  clamp (resolveAxis store.tilt args.tilt args.relative) args.tilt_min args.tilt_max

/-- The record built by state.update(...) in cmd_move: clamped targets plus
the bounds taken from the request, overwriting all six fields. -/
def savedState (args : MoveArgs) (store : PositionState) : PositionState :=
  { store with
      pan := resolvedPan args store, tilt := resolvedTilt args store,
      pan_min := args.pan_min, pan_max := args.pan_max,
      tilt_min := args.tilt_min, tilt_max := args.tilt_max }

/-- cmd_move: load state, resolve and clamp targets, run move_servos, and
only then build and save the updated record. A raise inside move_servos
propagates, so the error value carries no new state. -/
def cmd_move (args : MoveArgs) (store : PositionState) (act : Actuator) :
    Except MoveErr (PositionState × List (ℚ × ℚ)) :=
  match move_servos (resolvedPan args store) (resolvedTilt args store)
      args.smooth_ms store.pan store.tilt act with
  | .error e => .error e
  | .ok traj => .ok (savedState args store, traj)

/-- Content of the state file after one move invocation: save_state runs
only on the success path of cmd_move; an exception leaves the file as it was. -/
def storeAfterMove (args : MoveArgs) (store : PositionState) (act : Actuator) :
    PositionState :=
  match cmd_move args store act with
  | .ok (s, _) => s
  | .error _ => store

/-- The argparse.Namespace built by cmd_center. -/
def centerArgs : MoveArgs :=
  { pan := some 0, tilt := some 0, relative := false, smooth_ms := 300,
    pan_min := DEFAULTS.pan_min, pan_max := DEFAULTS.pan_max,
    tilt_min := DEFAULTS.tilt_min, tilt_max := DEFAULTS.tilt_max }

/-- cmd_center delegates to cmd_move with the centering namespace. -/
def cmd_center (store : PositionState) (act : Actuator) :
    Except MoveErr (PositionState × List (ℚ × ℚ)) :=
  cmd_move centerArgs store act

/-- Substring occurrence on lists of characters. -/
def listContainsSub (needle : List Char) : List Char → Bool
  | [] => needle.isEmpty
  | c :: rest => needle.isPrefixOf (c :: rest) || listContainsSub needle rest

/-- The Python membership test of one string inside another. -/
def strContainsSub (hay needle : String) : Bool :=
  listContainsSub needle.data hay.data

def busyPat1 : String := "Pipeline handler in use by another process"
def busyPat2 : String := "Device or resource busy"
def busyPat3 : String := "failed to acquire camera"

def busyLine1 : String := "Camera appears busy (another process has the device open)."
def busyLine2 : String := "Close any running previews/streams (rpicam-*, libcamera-hello, Vilib)."

/-- camera_busy_message, parameterised by the stdout of the diagnostic
process listing. The lines are joined with newlines. -/
def camera_busy_message (psOut : String) : String :=
  let base := busyLine1 ++ "\n" ++ busyLine2
  if psOut.trim = "" then
    base ++ "\n" ++ "No obvious camera processes found."
  else
    base ++ "\n" ++ "Active camera-related processes:" ++ "\n" ++ psOut.trim

/-- Outcome classification of one external capture invocation: success, or
the device-busy path (which prints the busy report), or the generic failure
path (which surfaces the stripped combined output when non-empty). -/
inductive CaptureResult where
  | success
  | deviceBusy (report : String)
  | captureFailed (rawOut : Option String)
deriving DecidableEq

/-- run_rpicam on a finished process: zero exit returns; on nonzero exit the
combined stdout+stderr is matched against the three contention substrings to
pick the busy path, otherwise the generic path. -/
def run_rpicam (returncode : Int) (stdout stderr psOut : String) : CaptureResult :=
  if returncode = 0 then .success
  else
    let combined := stdout ++ stderr
    if strContainsSub combined busyPat1 || strContainsSub combined busyPat2
        || strContainsSub combined busyPat3 then
      .deviceBusy (camera_busy_message psOut)
    else
      let msg := combined.trim
      .captureFailed (if msg = "" then none else some msg)

/-! Helper lemmas -/

lemma one_le_stepsOf (ms : Int) : 1 ≤ stepsOf ms := by
  have h := le_max_left 1 (Int.tdiv ms 20)
  unfold stepsOf
  omega

lemma stepsOf_cast_ne_zero (ms : Int) : ((stepsOf ms : ℚ)) ≠ 0 := by
  have h := one_le_stepsOf ms
  exact Nat.cast_ne_zero.mpr (by omega)

lemma interp_last {n : ℕ} (hn : n ≠ 0) (s t : ℚ) : interp s t n n = t := by
  have h : (n : ℚ) ≠ 0 := Nat.cast_ne_zero.mpr hn
  field_simp [interp]

lemma interp_self (x : ℚ) (i n : ℕ) : interp x x i n = x := by
  simp [interp]

lemma trajectory_length (pan tilt sp st : ℚ) (steps : ℕ) :
    (trajectory pan tilt sp st steps).length = steps := by
  simp [trajectory]

lemma trajectory_getLast (pan tilt sp st : ℚ) {steps : ℕ} (h : 1 ≤ steps) :
    (trajectory pan tilt sp st steps).getLast? =
      some (interp sp pan steps steps, interp st tilt steps steps) := by
  obtain ⟨k, rfl⟩ : ∃ k, steps = k + 1 := ⟨steps - 1, by omega⟩
  rw [trajectory, List.range'_concat, List.map_append]
  simp only [List.map_cons, List.map_nil]
  rw [List.getLast?_concat]
  rw [show 1 + 1 * k = k + 1 from by omega]

lemma move_servos_conn_false {pan tilt sp st : ℚ} {ms : Int} {act : Actuator}
    (h : act.connected = false) :
    move_servos pan tilt ms sp st act = .error .actuatorUnavailable := by
  simp [move_servos, h]

lemma move_servos_ok_of (pan tilt sp st : ℚ) (ms : Int) (act : Actuator)
    (hconn : act.connected = true)
    (hfail : ∀ i, act.failAt = some i → ¬(1 ≤ i ∧ i ≤ stepsOf ms)) :
    move_servos pan tilt ms sp st act =
      .ok (trajectory pan tilt sp st (stepsOf ms)) := by
  obtain ⟨c, f⟩ := act
  obtain rfl : c = true := hconn
  cases f with
  | none => simp [move_servos]
  | some i => simp [move_servos, hfail i rfl]

lemma move_servos_ok_elim {pan tilt sp st : ℚ} {ms : Int} {act : Actuator}
    {traj : List (ℚ × ℚ)} (h : move_servos pan tilt ms sp st act = .ok traj) :
    act.connected = true ∧
      (∀ i, act.failAt = some i → ¬(1 ≤ i ∧ i ≤ stepsOf ms)) ∧
      traj = trajectory pan tilt sp st (stepsOf ms) := by
  obtain ⟨c, f⟩ := act
  cases c with
  | false => simp [move_servos] at h
  | true =>
    cases f with
    | none =>
      simp only [move_servos] at h
      simp at h
      exact ⟨rfl, by simp, h.symm⟩
    | some i =>
      simp only [move_servos] at h
      simp at h
      by_cases hr : 1 ≤ i ∧ i ≤ stepsOf ms
      · rw [if_pos hr] at h
        exact absurd h (by simp)
      · rw [if_neg hr] at h
        simp at h
        refine ⟨rfl, ?_, h.symm⟩
        intro j hj
        obtain rfl : i = j := Option.some_inj.mp hj
        exact hr

lemma cmd_move_ok_of (args : MoveArgs) (store : PositionState) (act : Actuator)
    (hconn : act.connected = true)
    (hfail : ∀ i, act.failAt = some i → ¬(1 ≤ i ∧ i ≤ stepsOf args.smooth_ms)) :
    cmd_move args store act =
      .ok (savedState args store,
        trajectory (resolvedPan args store) (resolvedTilt args store)
          store.pan store.tilt (stepsOf args.smooth_ms)) := by
  unfold cmd_move
  rw [move_servos_ok_of _ _ _ _ _ _ hconn hfail]

lemma move_servos_fail_of (pan tilt sp st : ℚ) (ms : Int) (act : Actuator)
    (hconn : act.connected = true) {i : ℕ} (hf : act.failAt = some i)
    (h1 : 1 ≤ i) (h2 : i ≤ stepsOf ms) :
    move_servos pan tilt ms sp st act = .error (.stepFailed i) := by
  obtain ⟨c, f⟩ := act
  obtain rfl : c = true := hconn
  obtain rfl : f = some i := hf
  simp [move_servos, h1, h2]

lemma cmd_move_ok_elim {args : MoveArgs} {store : PositionState} {act : Actuator}
    {s : PositionState} {traj : List (ℚ × ℚ)}
    (h : cmd_move args store act = .ok (s, traj)) :
    act.connected = true ∧
      (∀ i, act.failAt = some i → ¬(1 ≤ i ∧ i ≤ stepsOf args.smooth_ms)) ∧
      s = savedState args store ∧
      traj = trajectory (resolvedPan args store) (resolvedTilt args store)
        store.pan store.tilt (stepsOf args.smooth_ms) := by
  unfold cmd_move at h
  split at h
  · exact absurd h (by simp)
  · rename_i traj' hms
    simp only [Except.ok.injEq, Prod.mk.injEq] at h
    obtain ⟨hs, htraj⟩ := h
    obtain ⟨h1, h2, h3⟩ := move_servos_ok_elim hms
    exact ⟨h1, h2, hs.symm, htraj ▸ h3⟩

lemma cmd_move_error_elim {args : MoveArgs} {store : PositionState}
    {act : Actuator} {e : MoveErr} (h : cmd_move args store act = .error e) :
    storeAfterMove args store act = store := by
  simp [storeAfterMove, h]

lemma clamp_mem {a lo hi : ℚ} (h1 : lo ≤ a) (h2 : a ≤ hi) : clamp a lo hi = a := by
  simp [clamp, min_eq_right h2, max_eq_right h1]

lemma clamp_bounds {lo hi : ℚ} (a : ℚ) (h : lo ≤ hi) :
    lo ≤ clamp a lo hi ∧ clamp a lo hi ≤ hi :=
  ⟨le_max_left _ _, max_le h (min_le_left _ _)⟩

lemma resolveAxis_eq_spec (cur : ℚ) (req : Option ℚ) (rel : Bool) :
    resolveAxis cur req rel = resolveSpec cur req rel := by
  cases req with
  | none => rfl
  | some v => cases rel <;> simp [resolveAxis, resolveSpec, add_comm]

/-! Concrete inputs used by witnesses and counterexamples -/

/-- An actuator environment where the daemon connects and no step raises. -/
def okAct : Actuator := { connected := true, failAt := none }

/-- An actuator environment where the daemon is unreachable. -/
def downAct : Actuator := { connected := false, failAt := none }

lemma okAct_no_fail {n : ℕ} : ∀ i, okAct.failAt = some i → ¬(1 ≤ i ∧ i ≤ n) := by
  intro i hi
  simp [okAct] at hi

/-- A plain absolute move request inside the default bounds. -/
def argsW : MoveArgs :=
  { pan := some 10, tilt := some 5, relative := false, smooth_ms := 100,
    pan_min := -90, pan_max := 90, tilt_min := -90, tilt_max := 30 }

/-! Claims -/

/-- C1: if any step of a move fails (the actuator connection is unavailable,
or a step of move_servos raises), the persisted record is unchanged;
save_state runs only after every step succeeded, so the stored record is the
fully reached position. -/
theorem move_failure_leaves_store_unchanged (args : MoveArgs)
    (store : PositionState) (act : Actuator) :
    (∀ e, cmd_move args store act = .error e →
      storeAfterMove args store act = store) ∧
    (act.connected = false →
      cmd_move args store act = .error .actuatorUnavailable) ∧
    (∀ i, act.connected = true → act.failAt = some i → 1 ≤ i →
      i ≤ stepsOf args.smooth_ms →
      cmd_move args store act = .error (.stepFailed i)) ∧
    (∀ s traj, cmd_move args store act = .ok (s, traj) →
      storeAfterMove args store act = s) := by
  refine ⟨fun e he => cmd_move_error_elim he, ?_, ?_, ?_⟩
  · intro hc
    unfold cmd_move
    rw [move_servos_conn_false hc]
  · intro i hconn hf h1 h2
    unfold cmd_move
    rw [move_servos_fail_of _ _ _ _ _ _ hconn hf h1 h2]
  · intro s traj h
    simp [storeAfterMove, h]

/-- Witness for C1: with the daemon unreachable, a move leaves the stored
defaults in place. -/
theorem move_failure_leaves_store_unchanged_witness :
    storeAfterMove argsW DEFAULTS downAct = DEFAULTS := by
  have h := move_failure_leaves_store_unchanged argsW DEFAULTS downAct
  exact h.1 .actuatorUnavailable (h.2.1 rfl)

/-- C2: each axis target is the stored value when omitted, stored + delta
when relative, the requested value otherwise; the persisted bounds are
exactly the request's bounds (never merged with the stored ones), and the
center shortcut uses the hardcoded defaults. -/
theorem move_target_resolution_and_bounds :
    (∀ (cur : ℚ) (req : Option ℚ) (rel : Bool),
      resolveAxis cur req rel = resolveSpec cur req rel) ∧
    (∀ (args : MoveArgs) (store : PositionState) (act : Actuator)
        (s : PositionState) (traj : List (ℚ × ℚ)),
      cmd_move args store act = .ok (s, traj) →
        s.pan = clamp (resolveSpec store.pan args.pan args.relative)
          args.pan_min args.pan_max ∧
        s.tilt = clamp (resolveSpec store.tilt args.tilt args.relative)
          args.tilt_min args.tilt_max ∧
        s.pan_min = args.pan_min ∧ s.pan_max = args.pan_max ∧
        s.tilt_min = args.tilt_min ∧ s.tilt_max = args.tilt_max) ∧
    (centerArgs.pan_min = DEFAULTS.pan_min ∧
     centerArgs.pan_max = DEFAULTS.pan_max ∧
     centerArgs.tilt_min = DEFAULTS.tilt_min ∧
     centerArgs.tilt_max = DEFAULTS.tilt_max) := by
  refine ⟨resolveAxis_eq_spec, ?_, by simp [centerArgs]⟩
  intro args store act s traj h
  obtain ⟨-, -, rfl, -⟩ := cmd_move_ok_elim h
  refine ⟨?_, ?_, rfl, rfl, rfl, rfl⟩
  · show resolvedPan args store = _
    rw [resolvedPan, resolveAxis_eq_spec]
  · show resolvedTilt args store = _
    rw [resolvedTilt, resolveAxis_eq_spec]

/-- Witness for C2: a successful absolute move stores the clamped spec-side
target and the request's own bounds. -/
theorem move_target_resolution_and_bounds_witness :
    (savedState argsW DEFAULTS).pan =
      clamp (resolveSpec DEFAULTS.pan argsW.pan argsW.relative)
        argsW.pan_min argsW.pan_max ∧
    (savedState argsW DEFAULTS).pan_min = argsW.pan_min := by
  have h := move_target_resolution_and_bounds.2.1 argsW DEFAULTS okAct
    (savedState argsW DEFAULTS)
    (trajectory (resolvedPan argsW DEFAULTS) (resolvedTilt argsW DEFAULTS)
      DEFAULTS.pan DEFAULTS.tilt (stepsOf argsW.smooth_ms))
    (cmd_move_ok_of argsW DEFAULTS okAct rfl okAct_no_fail)
  exact ⟨h.1, h.2.2.1⟩

/-- The scenario request of C3: pan=90, relative=false, bounds ±45. -/
def args90 : MoveArgs :=
  { pan := some 90, tilt := none, relative := false, smooth_ms := 300,
    pan_min := -45, pan_max := 45, tilt_min := -90, tilt_max := 30 }

/-- C3: for bounds lo < hi, clamp is the identity inside [lo, hi] and takes
the value lo or hi (never a) outside; in particular the request pan=90 with
bounds ±45 persists pan=45. -/
theorem clamp_spec_and_scenario :
    (∀ lo hi a : ℚ, lo < hi →
      (lo ≤ a ∧ a ≤ hi → clamp a lo hi = a) ∧
      (¬(lo ≤ a ∧ a ≤ hi) →
        (clamp a lo hi = lo ∨ clamp a lo hi = hi) ∧ clamp a lo hi ≠ a)) ∧
    (storeAfterMove args90 DEFAULTS okAct).pan = 45 := by
  constructor
  · intro lo hi a hlt
    constructor
    · rintro ⟨h1, h2⟩
      exact clamp_mem h1 h2
    · intro hout
      rcases not_and_or.mp hout with h | h
      · push_neg at h
        have hm : min hi a = a := min_eq_right (h.trans hlt).le
        have hc : clamp a lo hi = lo := by rw [clamp, hm, max_eq_left h.le]
        exact ⟨Or.inl hc, by rw [hc]; exact ne_of_gt h⟩
      · push_neg at h
        have hm : min hi a = hi := min_eq_left h.le
        have hc : clamp a lo hi = hi := by rw [clamp, hm, max_eq_right hlt.le]
        exact ⟨Or.inr hc, by rw [hc]; exact ne_of_lt h⟩
  · rw [storeAfterMove, cmd_move_ok_of args90 DEFAULTS okAct rfl okAct_no_fail]
    show resolvedPan args90 DEFAULTS = 45
    rw [resolvedPan]
    norm_num [args90, DEFAULTS, resolveAxis, clamp, min_def, max_def]

/-- Witness for C3: 100 lies outside [0, 10] and clamps to the bound 10,
not to itself. -/
theorem clamp_spec_and_scenario_witness :
    (clamp 100 0 10 = 0 ∨ clamp (100 : ℚ) 0 10 = 10) ∧ clamp (100 : ℚ) 0 10 ≠ 100 :=
  (clamp_spec_and_scenario.1 0 10 100 (by norm_num)).2 (by norm_num)

/-- C4: with steps = max(1, floor(smooth_ms/20)), the step i = steps of the
interpolation start + (target - start) * i / steps is exactly the clamped
target, so the last command of every successful move is the target pair. -/
theorem interp_endpoint_exact :
    (∀ (start target : ℚ) (ms : Int),
      interp start target (stepsOf ms) (stepsOf ms) = target) ∧
    (∀ (pan tilt sp st : ℚ) (ms : Int) (act : Actuator) (traj : List (ℚ × ℚ)),
      move_servos pan tilt ms sp st act = .ok traj →
        traj.getLast? = some (pan, tilt)) := by
  have hne : ∀ ms : Int, stepsOf ms ≠ 0 := by
    intro ms
    have := one_le_stepsOf ms
    omega
  refine ⟨fun s t ms => interp_last (hne ms) s t, ?_⟩
  intro pan tilt sp st ms act traj h
  obtain ⟨-, -, rfl⟩ := move_servos_ok_elim h
  rw [trajectory_getLast _ _ _ _ (one_le_stepsOf ms)]
  rw [interp_last (hne ms), interp_last (hne ms)]

/-- Witness for C4: the last command of a concrete successful move is its
clamped target pair. -/
theorem interp_endpoint_exact_witness :
    (trajectory (resolvedPan argsW DEFAULTS) (resolvedTilt argsW DEFAULTS)
        DEFAULTS.pan DEFAULTS.tilt (stepsOf argsW.smooth_ms)).getLast? =
      some (resolvedPan argsW DEFAULTS, resolvedTilt argsW DEFAULTS) :=
  interp_endpoint_exact.2 _ _ _ _ argsW.smooth_ms okAct _
    (move_servos_ok_of _ _ _ _ _ okAct rfl okAct_no_fail)

/-- C5: the step count is max(1, floor(smooth_ms/20)) (truncation and floor
agree after the max with 1), any smooth_ms ≤ 0 gives exactly one step, and a
successful move sends exactly that many commands, never zero. -/
theorem steps_count_spec (ms : Int) :
    stepsOf ms = (max 1 (Int.fdiv ms 20)).toNat ∧
    (ms ≤ 0 → stepsOf ms = 1) ∧
    (∀ (pan tilt sp st : ℚ) (act : Actuator) (traj : List (ℚ × ℚ)),
      move_servos pan tilt ms sp st act = .ok traj →
        traj.length = stepsOf ms ∧ 1 ≤ traj.length) := by
  have hneg : ∀ m : Int, m < 0 → Int.tdiv m 20 ≤ 0 := by
    intro m hm
    have h2 : 0 ≤ (-m).tdiv 20 := Int.tdiv_nonneg (by omega) (by norm_num)
    have h3 : (-m).tdiv 20 = -(m.tdiv 20) := Int.neg_tdiv m 20
    omega
  refine ⟨?_, ?_, ?_⟩
  · rcases le_or_lt 0 ms with h | h
    · rw [stepsOf, Int.tdiv_eq_ediv h (by norm_num),
        Int.fdiv_eq_ediv ms (by norm_num)]
    · have h4 : ms.fdiv 20 = ms / 20 := Int.fdiv_eq_ediv ms (by norm_num)
      have h5 : ms / 20 ≤ 0 := by omega
      have h6 := hneg ms h
      rw [stepsOf, max_eq_left (by omega), max_eq_left (by omega)]
  · intro hms
    rcases eq_or_lt_of_le hms with h | h
    · rw [stepsOf, h]
      decide
    · rw [stepsOf, max_eq_left (by have := hneg ms h; omega)]
      decide
  · intro pan tilt sp st act traj h
    obtain ⟨-, -, rfl⟩ := move_servos_ok_elim h
    rw [trajectory_length]
    exact ⟨rfl, one_le_stepsOf ms⟩

/-- Witness for C5: smooth_ms = -5 still yields one step. -/
theorem steps_count_spec_witness : stepsOf (-5) = 1 :=
  (steps_count_spec (-5)).2.1 (by norm_num)

/-- C6: loading a missing or corrupt record yields exactly the documented
defaults, and a field missing from a readable record falls back to its
default while a present field is taken as stored. -/
theorem load_state_defaults_and_fallback :
    load_state none = DEFAULTS ∧
    DEFAULTS = { pan := 0, tilt := 0, pan_min := -90, pan_max := 90,
                 tilt_min := -90, tilt_max := 30 } ∧
    (∀ d : StoredDoc,
      (d.pan = none → (load_state (some d)).pan = DEFAULTS.pan) ∧
      (d.tilt = none → (load_state (some d)).tilt = DEFAULTS.tilt) ∧
      (d.pan_min = none → (load_state (some d)).pan_min = DEFAULTS.pan_min) ∧
      (d.pan_max = none → (load_state (some d)).pan_max = DEFAULTS.pan_max) ∧
      (d.tilt_min = none → (load_state (some d)).tilt_min = DEFAULTS.tilt_min) ∧
      (d.tilt_max = none → (load_state (some d)).tilt_max = DEFAULTS.tilt_max) ∧
      (∀ v, d.pan = some v → (load_state (some d)).pan = v) ∧
      (∀ v, d.tilt = some v → (load_state (some d)).tilt = v)) := by
  refine ⟨rfl, rfl, ?_⟩
  intro d
  refine ⟨?_, ?_, ?_, ?_, ?_, ?_, ?_, ?_⟩ <;>
    first
      | (intro h; simp [load_state, h])
      | (intro v h; simp [load_state, h])

/-- A state document where only the tilt key is present. -/
def docTiltOnly : StoredDoc :=
  { pan := none, tilt := some 5, pan_min := none, pan_max := none,
    tilt_min := none, tilt_max := none }

/-- Witness for C6: a record with only a tilt key loads the default pan and
the stored tilt. -/
theorem load_state_defaults_and_fallback_witness :
    (load_state (some docTiltOnly)).pan = DEFAULTS.pan ∧
    (load_state (some docTiltOnly)).tilt = 5 :=
  ⟨(load_state_defaults_and_fallback.2.2 docTiltOnly).1 rfl,
   (load_state_defaults_and_fallback.2.2 docTiltOnly).2.2.2.2.2.2.2 5 rfl⟩

/-- C7: a nonzero exit whose combined output matches a contention substring
is classified on the busy path with a never-empty diagnostic report; any
other nonzero exit takes the generic path, surfacing the stripped combined
output exactly when it is non-empty. -/
theorem run_rpicam_classification (rc : Int) (outS errS psOut : String)
    (hrc : rc ≠ 0) :
    ((strContainsSub (outS ++ errS) busyPat1
        || strContainsSub (outS ++ errS) busyPat2
        || strContainsSub (outS ++ errS) busyPat3) = true →
      run_rpicam rc outS errS psOut = .deviceBusy (camera_busy_message psOut) ∧
      0 < (camera_busy_message psOut).length) ∧
    ((strContainsSub (outS ++ errS) busyPat1
        || strContainsSub (outS ++ errS) busyPat2
        || strContainsSub (outS ++ errS) busyPat3) = false →
      run_rpicam rc outS errS psOut =
        .captureFailed (if (outS ++ errS).trim = "" then none
          else some ((outS ++ errS).trim))) := by
  constructor
  · intro hmatch
    constructor
    · simp [run_rpicam, hrc, hmatch]
    · have hb : 0 < busyLine1.length := by decide
      unfold camera_busy_message
      split <;> simp only [String.length_append] <;> omega
  · intro hmatch
    simp [run_rpicam, hrc, hmatch]

/-- The empty output stream of the C7 witness scenario. -/
def emptyOut : String := ""

/-- The stderr text of the C7 witness scenario. -/
def busyErrOut : String := "ERROR: Device or resource busy"

/-- Witness for C7: exit 1 with stderr containing the resource-busy text is
classified busy with a non-empty report. -/
theorem run_rpicam_classification_witness :
    run_rpicam 1 emptyOut busyErrOut emptyOut =
      .deviceBusy (camera_busy_message emptyOut) ∧
    0 < (camera_busy_message emptyOut).length :=
  (run_rpicam_classification 1 emptyOut busyErrOut emptyOut
    (by norm_num)).1 (by decide)

/-- C8: whenever the request bounds are ordered, the record persisted by a
successful move keeps the stored position inside the stored bounds. -/
theorem stored_position_within_bounds (args : MoveArgs)
    (store : PositionState) (act : Actuator) (s : PositionState)
    (traj : List (ℚ × ℚ))
    (hp : args.pan_min ≤ args.pan_max) (ht : args.tilt_min ≤ args.tilt_max)
    (h : cmd_move args store act = .ok (s, traj)) :
    s.pan_min ≤ s.pan ∧ s.pan ≤ s.pan_max ∧
    s.tilt_min ≤ s.tilt ∧ s.tilt ≤ s.tilt_max := by
  obtain ⟨-, -, rfl, -⟩ := cmd_move_ok_elim h
  have h1 := clamp_bounds (resolveAxis store.pan args.pan args.relative) hp
  have h2 := clamp_bounds (resolveAxis store.tilt args.tilt args.relative) ht
  exact ⟨h1.1, h1.2, h2.1, h2.2⟩

/-- Witness for C8: a concrete successful move stores a position within the
stored bounds. -/
theorem stored_position_within_bounds_witness :
    (savedState argsW DEFAULTS).pan_min ≤ (savedState argsW DEFAULTS).pan ∧
    (savedState argsW DEFAULTS).pan ≤ (savedState argsW DEFAULTS).pan_max ∧
    (savedState argsW DEFAULTS).tilt_min ≤ (savedState argsW DEFAULTS).tilt ∧
    (savedState argsW DEFAULTS).tilt ≤ (savedState argsW DEFAULTS).tilt_max :=
  stored_position_within_bounds argsW DEFAULTS okAct _ _
    (by norm_num [argsW]) (by norm_num [argsW])
    (cmd_move_ok_of argsW DEFAULTS okAct rfl okAct_no_fail)

/-- The stored state of the C9 counterexample: pan 50 inside the stored
default bounds. -/
def cexStore : PositionState :=
  { pan := 50, tilt := 0, pan_min := -90, pan_max := 90,
    tilt_min := -90, tilt_max := 30 }

/-- The C9 counterexample request: absolute move to the current position,
but with narrower request bounds ±45. -/
def cexArgs : MoveArgs :=
  { pan := some 50, tilt := some 0, relative := false, smooth_ms := 0,
    pan_min := -45, pan_max := 45, tilt_min := -90, tilt_max := 30 }

/-- Counterexample to C9 as stated: an absolute move targeting the current
stored position does not always leave the persisted state unchanged in
value — with request bounds ±45 a stored pan of 50 is clamped and persisted
as 45. -/
theorem move_idempotence_cex :
    (storeAfterMove cexArgs cexStore okAct).pan ≠ cexStore.pan := by
  rw [storeAfterMove, cmd_move_ok_of cexArgs cexStore okAct rfl okAct_no_fail]
  show resolvedPan cexArgs cexStore ≠ cexStore.pan
  rw [resolvedPan]
  norm_num [cexArgs, cexStore, resolveAxis, clamp, min_def, max_def]

/-- C9 (amended): when the stored position already lies within the request
bounds, an absolute move targeting it yields a constant trajectory and
persists the same pan and tilt values. -/
theorem move_idempotent_within_bounds (args : MoveArgs)
    (store : PositionState) (act : Actuator) (s : PositionState)
    (traj : List (ℚ × ℚ))
    (hrel : args.relative = false)
    (hpan : args.pan = some store.pan) (htilt : args.tilt = some store.tilt)
    (h1 : args.pan_min ≤ store.pan) (h2 : store.pan ≤ args.pan_max)
    (h3 : args.tilt_min ≤ store.tilt) (h4 : store.tilt ≤ args.tilt_max)
    (h : cmd_move args store act = .ok (s, traj)) :
    s.pan = store.pan ∧ s.tilt = store.tilt ∧
      ∀ pt ∈ traj, pt = (store.pan, store.tilt) := by
  obtain ⟨-, -, rfl, rfl⟩ := cmd_move_ok_elim h
  have hrp : resolvedPan args store = store.pan := by
    rw [resolvedPan, hpan, hrel]
    have hv : resolveAxis store.pan (some store.pan) false = store.pan := by
      simp [resolveAxis]
    rw [hv]
    exact clamp_mem h1 h2
  have hrt : resolvedTilt args store = store.tilt := by
    rw [resolvedTilt, htilt, hrel]
    have hv : resolveAxis store.tilt (some store.tilt) false = store.tilt := by
      simp [resolveAxis]
    rw [hv]
    exact clamp_mem h3 h4
  refine ⟨hrp, hrt, ?_⟩
  intro pt hpt
  rw [hrp, hrt] at hpt
  simp only [trajectory, List.mem_map] at hpt
  obtain ⟨i, -, rfl⟩ := hpt
  rw [interp_self, interp_self]

/-- The identity move request at the default position. -/
def argsId : MoveArgs :=
  { pan := some 0, tilt := some 0, relative := false, smooth_ms := 300,
    pan_min := -90, pan_max := 90, tilt_min := -90, tilt_max := 30 }

/-- Witness for C9 (amended): the identity move at the defaults persists the
same position and commands only that position. -/
theorem move_idempotent_within_bounds_witness :
    (savedState argsId DEFAULTS).pan = DEFAULTS.pan ∧
    (savedState argsId DEFAULTS).tilt = DEFAULTS.tilt ∧
    ∀ pt ∈ trajectory (resolvedPan argsId DEFAULTS)
        (resolvedTilt argsId DEFAULTS) DEFAULTS.pan DEFAULTS.tilt
        (stepsOf argsId.smooth_ms),
      pt = (DEFAULTS.pan, DEFAULTS.tilt) :=
  move_idempotent_within_bounds argsId DEFAULTS okAct _ _ rfl rfl rfl
    (by norm_num [argsId, DEFAULTS]) (by norm_num [argsId, DEFAULTS])
    (by norm_num [argsId, DEFAULTS]) (by norm_num [argsId, DEFAULTS])
    (cmd_move_ok_of argsId DEFAULTS okAct rfl okAct_no_fail)

/-- C10: clamp with inverted bounds (lo > hi) returns lo for every value, so
a move whose pan bounds are inverted persists pan = pan_min regardless of
the request (and symmetrically for tilt); nothing validates the ordering. -/
theorem inverted_bounds_persist_lower :
    (∀ v lo hi : ℚ, hi < lo → clamp v lo hi = lo) ∧
    (∀ (args : MoveArgs) (store : PositionState) (act : Actuator)
        (s : PositionState) (traj : List (ℚ × ℚ)),
      cmd_move args store act = .ok (s, traj) →
        (args.pan_max < args.pan_min → s.pan = args.pan_min) ∧
        (args.tilt_max < args.tilt_min → s.tilt = args.tilt_min)) := by
  have hcl : ∀ v lo hi : ℚ, hi < lo → clamp v lo hi = lo := by
    intro v lo hi h
    exact max_eq_left ((min_le_left hi v).trans h.le)
  refine ⟨hcl, ?_⟩
  intro args store act s traj h
  obtain ⟨-, -, rfl, -⟩ := cmd_move_ok_elim h
  exact ⟨fun hp => hcl _ _ _ hp, fun ht => hcl _ _ _ ht⟩

/-- A move request with inverted pan bounds (pan_min = 10 > pan_max = -10). -/
def argsInv : MoveArgs :=
  { pan := some 90, tilt := none, relative := false, smooth_ms := 0,
    pan_min := 10, pan_max := -10, tilt_min := -90, tilt_max := 30 }

/-- Witness for C10: requesting pan=90 under inverted bounds persists
pan = pan_min = 10. -/
theorem inverted_bounds_persist_lower_witness :
    (savedState argsInv DEFAULTS).pan = argsInv.pan_min :=
  (inverted_bounds_persist_lower.2 argsInv DEFAULTS okAct _ _
    (cmd_move_ok_of argsInv DEFAULTS okAct rfl okAct_no_fail)).1
    (by norm_num [argsInv])

end PTZ
